import Mathlib

set_option linter.unusedVariables false

/-!
# Verification of the browser-session orchestration layer of social-auto-upload

This file is a shallow embedding, in Lean 4, of the browser-session
orchestration code of the repository:

* `utils/bitbrowser_api.py` — the BitBrowser local-API HTTP client
  (`BitBrowserAPI`, `get_bitbrowser_api`);
* `utils/bitbrowser_connector.py` — the connector that opens a remote
  BitBrowser window and attaches Playwright over CDP
  (`BitBrowserConnector`), and the backend-selecting `BrowserManager`;
* `utils/browser_helper.py` — the unified creation helper
  (`create_browser_and_context`) and the account-configuration resolver
  (`get_account_browser_config`);
* `myUtils/postVideo.py` — `get_account_browser_config_by_filepath`;
* the publish-time scheduler (modelled from the specification, see below).

External effects (HTTP requests to the BitBrowser service, Playwright
launches and CDP attaches, the file system, the SQLite store) are modelled
by an explicit environment record describing the outcome of each external
call, and every modelled operation additionally returns the list of
external actions (`Eff`) it performed, in order.  Python exceptions are
modelled with `Except PyError`; a function that cannot raise returns a
plain value.  Python truthiness of optional strings (`None` and `""` are
falsy) is modelled explicitly.
-/

/-! ## Python-value helpers -/

/-- Python exceptions that the modelled code can raise or propagate. -/
inductive PyError where
  | attributeError (msg : String)
  | typeError (msg : String)
  | valueError (msg : String)
  | exception (msg : String)
  deriving DecidableEq

/-- Truthiness of a Python value that is either `None` or a string:
`None` and the empty string are falsy. -/
def strTruthy : Option String → Bool
  | none => false
  | some s => s ≠ ""

/-- ASCII lower-casing of one character, as `str.lower` acts on the
ASCII strings used by the code. -/
def pyLowerChar (c : Char) : Char :=
  if 'A' ≤ c ∧ c ≤ 'Z' then Char.ofNat (c.toNat + 32) else c

/-- `str.lower` on the ASCII strings used by the code. -/
def pyLower (s : String) : String := String.mk (s.data.map pyLowerChar)

/-- `str.rstrip("/")`: drop every trailing `/` character. -/
def rstripSlash (s : String) : String :=
  String.mk ((s.data.reverse.dropWhile (fun c => c = '/')).reverse)

/-! ## JSON values

`bitbrowser_api.py` works with the decoded JSON value of each HTTP
response (`response.json()`), an arbitrary Python object.  `JVal` models
such decoded values; `jnull` stands for Python `None`. -/

inductive JVal where
  | jnull
  | jbool (b : Bool)
  | jstr (s : String)
  | jnum (n : Int)
  | jarr (xs : List JVal)
  | jobj (fields : List (String × JVal))

/-- Field lookup in a JSON object's field list (Python `dict` keys are
unique, so first match suffices). -/
def jget (fields : List (String × JVal)) (k : String) : Option JVal :=
  match fields with
  | [] => none
  | (k2, v) :: rest => if k2 = k then some v else jget rest k

/-- Python `obj.get(k, d)`: succeeds with the stored value (or the
default `d` when the key is absent) when `obj` is a dict, and raises
`AttributeError` on any non-dict value. -/
def pyGet (j : JVal) (k : String) (d : JVal) : Except PyError JVal :=
  match j with
  | .jobj fs => .ok ((jget fs k).getD d)
  | _ => .error (.attributeError "object has no attribute get")

/-- Python truthiness of a decoded JSON value. -/
def jTruthy : JVal → Bool
  | .jnull => false
  | .jbool b => b
  | .jstr s => s ≠ ""
  | .jnum n => n ≠ 0
  | .jarr xs => ¬ xs.isEmpty
  | .jobj fs => ¬ fs.isEmpty

/-- Python `needle in s` for strings: substring test (`""` is a substring
of every string). -/
def pyInStr (needle s : String) : Bool :=
  needle = "" ∨ (s.splitOn needle).length > 1

/-- Whether a JSON array contains a given string (Python `x in xs`). -/
def jarrContainsStr (xs : List JVal) (x : String) : Bool :=
  xs.any fun v => match v with
    | .jstr t => t = x
    | _ => false

/-! ## `BitBrowserAPI` (`utils/bitbrowser_api.py`)

The HTTP layer is abstracted into a `ReqOutcome`: either the service
answered with a 2xx status and a JSON body that decoded to a `JVal`, or
`requests` raised a `RequestException` (timeout, connection refused,
non-2xx status via `raise_for_status`, or — with the `requests` releases
the project runs on, where `JSONDecodeError` is a `RequestException` —
a body that fails JSON decoding). -/

inductive ReqOutcome where
  | ok (resp : JVal)
  | exn (msg : String)

/-- `BitBrowserAPI.__init__` state: the configured base address. -/
structure BitBrowserAPI where
  base_url : String
  deriving DecidableEq

/-- `BitBrowserAPI(base_url)`: stores `base_url.rstrip('/')`. -/
def BitBrowserAPI.mk_init (base_url : String) : BitBrowserAPI :=
  { base_url := rstripSlash base_url }

/-- `BitBrowserAPI._request`: returns the decoded response, and converts
any `RequestException` into the dict `{"success": False, "msg": str(e)}`
instead of raising. -/
def _request (out : ReqOutcome) : JVal :=
  match out with
  | .ok resp => resp
  | .exn msg => .jobj [("success", .jbool false), ("msg", .jstr msg)]

/-- `BitBrowserAPI.health_check`: `result.get("success", False)`, read as
a boolean. -/
def BitBrowserAPI.health_check (out : ReqOutcome) : Except PyError Bool := do
  let result := _request out
  let v ← pyGet result "success" (.jbool false)
  return jTruthy v

/-- `BitBrowserAPI.create_browser`: completes the config with the default
fingerprint when absent and returns the raw `_request` result. -/
def BitBrowserAPI.create_browser (out : ReqOutcome)
    (browser_config : List (String × JVal)) : JVal :=
  let default_fingerprint : JVal := .jobj
    [("coreVersion", .jstr "130"), ("ostype", .jstr "PC"),
     ("os", .jstr "Win32"), ("osVersion", .jstr "11,10")]
  let _browser_config :=
    if (jget browser_config "browserFingerPrint").isSome then browser_config
    else browser_config ++ [("browserFingerPrint", default_fingerprint)]
  _request out

/-- `BitBrowserAPI.open_browser`: returns `result.get("data")` when the
success flag is truthy, and `None` otherwise. -/
def BitBrowserAPI.open_browser (out : ReqOutcome) (browser_id : String)
    (args : Option (List String)) (queue : Bool)
    (new_page_url : Option String) : Except PyError JVal := do
  let result := _request out
  let s ← pyGet result "success" .jnull
  if jTruthy s then pyGet result "data" .jnull
  else return .jnull

/-- `BitBrowserAPI.close_browser`: `result.get("success", False)`. -/
def BitBrowserAPI.close_browser (out : ReqOutcome) (browser_id : String) :
    Except PyError Bool := do
  let result := _request out
  let v ← pyGet result "success" (.jbool false)
  return jTruthy v

/-- `BitBrowserAPI.delete_browser`: `result.get("success", False)`. -/
def BitBrowserAPI.delete_browser (out : ReqOutcome) (browser_id : String) :
    Except PyError Bool := do
  let result := _request out
  let v ← pyGet result "success" (.jbool false)
  return jTruthy v

/-- `BitBrowserAPI.get_browser_detail`: `result.get("data")` on success,
`None` otherwise. -/
def BitBrowserAPI.get_browser_detail (out : ReqOutcome) (browser_id : String) :
    Except PyError JVal := do
  let result := _request out
  let s ← pyGet result "success" .jnull
  if jTruthy s then pyGet result "data" .jnull
  else return .jnull

/-- The request payload built by `BitBrowserAPI.list_browsers`: note the
clamp `pageSize = min(page_size, 100)` and the truthiness-guarded
optional fields. -/
def BitBrowserAPI.list_browsers_payload (page : Int) (page_size : Int)
    (group_id : Option String) (name : Option String) :
    List (String × JVal) :=
  let data := [("page", JVal.jnum page), ("pageSize", JVal.jnum (min page_size 100))]
  let data := if strTruthy group_id
    then data ++ [("groupId", JVal.jstr (group_id.getD ""))] else data
  if strTruthy name then data ++ [("name", JVal.jstr (name.getD ""))] else data

/-- `BitBrowserAPI.list_browsers`: `result.get("data", {}).get("list", [])`
on success, `None` otherwise. -/
def BitBrowserAPI.list_browsers (out : ReqOutcome) (page : Int)
    (page_size : Int) (group_id : Option String) (name : Option String) :
    Except PyError JVal := do
  let result := _request out
  let s ← pyGet result "success" .jnull
  if jTruthy s then
    let d ← pyGet result "data" (.jobj [])
    pyGet d "list" (.jarr [])
  else return .jnull

/-- `BitBrowserAPI.get_browser_pids`: `result.get("data", {})` on success,
`{}` otherwise. -/
def BitBrowserAPI.get_browser_pids (out : ReqOutcome)
    (browser_ids : List String) : Except PyError JVal := do
  let result := _request out
  let s ← pyGet result "success" .jnull
  if jTruthy s then pyGet result "data" (.jobj [])
  else return .jobj []

/-- `BitBrowserAPI.is_browser_opened`:
`browser_id in pids and pids[browser_id] > 0`, with the Python
behaviours of `in` and of `> 0` on the possible value shapes. -/
def BitBrowserAPI.is_browser_opened (out : ReqOutcome) (browser_id : String) :
    Except PyError Bool := do
  let pids ← BitBrowserAPI.get_browser_pids out [browser_id]
  match pids with
  | .jobj fs =>
    match jget fs browser_id with
    | none => return false
    | some (.jnum n) => return decide (0 < n)
    | some (.jbool b) => return b
    | some _ => .error (.typeError "not supported between instances")
  | .jarr xs =>
    if jarrContainsStr xs browser_id
    then .error (.typeError "list indices must be integers")
    else return false
  | .jstr s =>
    if pyInStr browser_id s
    then .error (.typeError "string indices must be integers")
    else return false
  | _ => .error (.typeError "argument is not iterable")

/-- `BitBrowserAPI.update_browser_proxy`: `result.get("success", False)`. -/
def BitBrowserAPI.update_browser_proxy (out : ReqOutcome)
    (browser_ids : List String) (proxy_type : String) (host : String)
    (port : Int) (proxy_username : Option String)
    (proxy_password : Option String) (proxy_method : Int) :
    Except PyError Bool := do
  let result := _request out
  let v ← pyGet result "success" (.jbool false)
  return jTruthy v

/-- `BitBrowserAPI.reset_browser_status`: `result.get("success", False)`. -/
def BitBrowserAPI.reset_browser_status (out : ReqOutcome)
    (browser_id : String) : Except PyError Bool := do
  let result := _request out
  let v ← pyGet result "success" (.jbool false)
  return jTruthy v

/-- `BitBrowserAPI.get_cookies`: `result.get("data")` on success, `None`
otherwise. -/
def BitBrowserAPI.get_cookies (out : ReqOutcome) (browser_id : String) :
    Except PyError JVal := do
  let result := _request out
  let s ← pyGet result "success" .jnull
  if jTruthy s then pyGet result "data" .jnull
  else return .jnull

/-- `BitBrowserAPI.set_cookies`: `result.get("success", False)`. -/
def BitBrowserAPI.set_cookies (out : ReqOutcome) (browser_id : String)
    (cookies : List JVal) : Except PyError Bool := do
  let result := _request out
  let v ← pyGet result "success" (.jbool false)
  return jTruthy v

/-- `BitBrowserAPI.clear_cookies`: `result.get("success", False)`. -/
def BitBrowserAPI.clear_cookies (out : ReqOutcome) (browser_id : String)
    (save_synced : Bool) : Except PyError Bool := do
  let result := _request out
  let v ← pyGet result "success" (.jbool false)
  return jTruthy v

/-- `BitBrowserAPI.create_browser_for_platform`: on a successful create,
`result.get("data", {}).get("id")`; `None` otherwise. -/
def BitBrowserAPI.create_browser_for_platform (out : ReqOutcome)
    (browser_config : List (String × JVal)) : Except PyError JVal := do
  let result := BitBrowserAPI.create_browser out browser_config
  let s ← pyGet result "success" .jnull
  if jTruthy s then
    let d ← pyGet result "data" (.jobj [])
    pyGet d "id" .jnull
  else return .jnull

/-! ### The module-level singleton `get_bitbrowser_api`

`_default_api` is a module-global, modelled as explicit state of type
`Option BitBrowserAPI` threaded through the call. -/

/-- `get_bitbrowser_api(base_url)`: creates the client on the first call
and returns the already-stored instance — whatever `base_url` is passed —
on every later call. -/
def get_bitbrowser_api (st : Option BitBrowserAPI) (base_url : String) :
    BitBrowserAPI × Option BitBrowserAPI :=
  match st with
  | none =>
    let api := BitBrowserAPI.mk_init base_url
    (api, some api)
  | some api => (api, some api)

/-! ## Account configuration resolution
(`utils/browser_helper.py` and `myUtils/postVideo.py`)

The single-row SQLite query is abstracted into its outcome: a row was
found, no row was found, or the query (or opening the database) raised. -/

/-- A `user_info` row as read by the resolvers; both columns are
nullable. -/
structure UserRow where
  browser_type : Option String
  bitbrowser_id : Option String
  deriving DecidableEq

/-- Outcome of the `SELECT browser_type, bitbrowser_id FROM user_info`
lookup. -/
inductive QueryOutcome where
  | found (row : UserRow)
  | notFound
  | err (msg : String)
  deriving DecidableEq

/-- The dict returned by the resolvers. -/
structure BrowserConfig where
  browser_type : String
  bitbrowser_id : Option String
  deriving DecidableEq

/-- `conf.DEFAULT_BROWSER_TYPE` (from `conf.example.py`). -/
def DEFAULT_BROWSER_TYPE : String := "playwright"

/-- `conf.BIT_BROWSER_URL` (from `conf.example.py`). -/
def BIT_BROWSER_URL : String := "http://127.0.0.1:54345"

/-- `conf.LOCAL_CHROME_PATH` (from `conf.example.py`). -/
def LOCAL_CHROME_PATH : String := ""

/-- `conf.LOCAL_CHROME_HEADLESS` (from `conf.example.py`). -/
def LOCAL_CHROME_HEADLESS : Bool := false

/-- `browser_helper.get_account_browser_config`: the whole body runs in a
`try` whose `except` returns the default config, so the function is total;
`result["browser_type"] or DEFAULT_BROWSER_TYPE` defaults on a NULL or
empty column. -/
def get_account_browser_config (q : QueryOutcome) : BrowserConfig :=
  match q with
  | .found row =>
    { browser_type :=
        match row.browser_type with
        | none => DEFAULT_BROWSER_TYPE
        | some s => if s = "" then DEFAULT_BROWSER_TYPE else s,
      bitbrowser_id := row.bitbrowser_id }
  | .notFound => { browser_type := DEFAULT_BROWSER_TYPE, bitbrowser_id := none }
  | .err _ => { browser_type := DEFAULT_BROWSER_TYPE, bitbrowser_id := none }

/-- `postVideo.get_account_browser_config_by_filepath`: same body, keyed
on `filePath`, with the literal `"playwright"` as the default. -/
def get_account_browser_config_by_filepath (q : QueryOutcome) : BrowserConfig :=
  match q with
  | .found row =>
    { browser_type :=
        match row.browser_type with
        | none => "playwright"
        | some s => if s = "" then "playwright" else s,
      bitbrowser_id := row.bitbrowser_id }
  | .notFound => { browser_type := "playwright", bitbrowser_id := none }
  | .err _ => { browser_type := "playwright", bitbrowser_id := none }

/-! ## Browsers, contexts and the connector
(`utils/bitbrowser_connector.py`, `utils/browser_helper.py`)

Playwright objects are modelled structurally: a browsing context carries
an identity and its cookies; a browser carries its list of contexts.
The outcome of every external call made on the remote path is collected
in an `Env` record, and each modelled function also returns the ordered
list of external actions (`Eff`) it performed. -/

/-- A cookie record from an authentication-state file or a context. -/
structure Cookie where
  name : String
  value : String
  domain : String
  deriving DecidableEq

/-- A Playwright `BrowserContext`: object identity plus cookie store. -/
structure BrowserContext where
  id : Nat
  cookies : List Cookie
  deriving DecidableEq

/-- A Playwright `Browser`: its list of browsing contexts. -/
structure Browser where
  contexts : List BrowserContext
  deriving DecidableEq

/-- A parsed authentication-state JSON document; `cookiesKey` is the
value of its optional `cookies` entry. -/
structure StorageState where
  cookiesKey : Option (List Cookie)
  deriving DecidableEq

/-- The `data` payload of a successful `/browser/open` call; `ws` is
`data.get("ws")`. -/
structure OpenData where
  ws : Option String
  deriving DecidableEq

/-- External actions performed by the orchestration layer, in order. -/
inductive Eff where
  | healthCheck
  | apiOpen (browser_id : String) (args : List String)
  | apiClose (browser_id : String)
  | connectCdp (ws : String)
  | newContext (storage_file : Option String)
  | initScript (ctx_id : Nat)
  | addCookies (ctx_id : Nat) (cookies : List Cookie)
  | launchLocal (headless : Bool) (executable_path : Option String)
  | sleepFor (seconds : Nat)
  | browserClose
  deriving DecidableEq

/-- Outcomes of the external calls a connector run can make.  A field is
consulted only when the corresponding call is reached. -/
structure Env where
  /-- result of `api.health_check()` -/
  healthOk : Bool
  /-- result of `api.open_browser(...)`: `none` for a failed or falsy
  open result, otherwise the `data` payload -/
  openData : Option OpenData
  /-- whether `chromium.connect_over_cdp(ws)` succeeds -/
  attachOk : Bool
  /-- the `Browser` object obtained when the CDP attach succeeds -/
  attachedBrowser : Browser
  /-- whether `Path(account_file).exists()` -/
  fileExists : Bool
  /-- result of `json.load` on the account file: `none` means the load
  raised -/
  fileParse : Option StorageState
  /-- success flag returned by `api.close_browser(...)` -/
  apiCloseOk : Bool
  /-- identity of the next context created by `browser.new_context` -/
  freshId : Nat
  /-- the module-global `_default_api` at entry -/
  apiState : Option BitBrowserAPI
  deriving DecidableEq

/-- `browser.new_context(storage_state=account_file)`: when a file is
supplied, Playwright reads and JSON-parses it to seed the new context's
cookies, and raises when the file is missing or fails to parse; with no
file the context starts empty. -/
def new_context_storage (env : Env) (account_file : Option String) :
    Except PyError (List Cookie) :=
  if strTruthy account_file then
    if env.fileExists then
      match env.fileParse with
      | some ss => .ok (ss.cookiesKey.getD [])
      | none => .error (.exception "storage state file could not be parsed")
    else .error (.exception "storage state file not found")
  else .ok []

/-- `BitBrowserConnector.__init__` state. -/
structure BitBrowserConnector where
  api : BitBrowserAPI
  bit_browser_url : String
  current_browser_id : Option String
  deriving DecidableEq

/-- `BitBrowserConnector(bit_browser_url)`: obtains the shared API
client via `get_bitbrowser_api(bit_browser_url)` and starts with no
current browser id. -/
def BitBrowserConnector.mk_init (st : Option BitBrowserAPI)
    (bit_browser_url : String) :
    BitBrowserConnector × Option BitBrowserAPI :=
  let (api, st2) := get_bitbrowser_api st bit_browser_url
  ({ api := api, bit_browser_url := bit_browser_url,
     current_browser_id := none }, st2)

/-- `BitBrowserConnector.open_browser`: health probe, remote open,
extraction of the `ws` endpoint, CDP attach; on attach failure the
just-opened window is closed via the API before returning `None`. -/
def BitBrowserConnector.open_browser (env : Env) (c : BitBrowserConnector)
    (browser_id : String) (headless : Bool) (args : Option (List String)) :
    Option Browser × BitBrowserConnector × List Eff :=
  if ¬ env.healthOk then (none, c, [.healthCheck])
  else
    let launch_args := args.getD [] ++ (if headless then ["--headless"] else [])
    match env.openData with
    | none => (none, c, [.healthCheck, .apiOpen browser_id launch_args])
    | some od =>
      match od.ws with
      | none => (none, c, [.healthCheck, .apiOpen browser_id launch_args])
      | some ws =>
        if ws = "" then (none, c, [.healthCheck, .apiOpen browser_id launch_args])
        else if env.attachOk then
          (some env.attachedBrowser,
           { c with current_browser_id := some browser_id },
           [.healthCheck, .apiOpen browser_id launch_args, .connectCdp ws])
        else
          (none, c,
           [.healthCheck, .apiOpen browser_id launch_args, .connectCdp ws,
            .apiClose browser_id])

/-- `BitBrowserConnector.close_browser`: falls back to the stored
current id, returns `False` without any API call when no id is
available, otherwise sleeps and issues the close request, clearing the
stored id on success.  Never raises. -/
def BitBrowserConnector.close_browser (env : Env) (c : BitBrowserConnector)
    (browser_id : Option String) (delay : Nat) :
    Bool × BitBrowserConnector × List Eff :=
  match (if strTruthy browser_id then browser_id else c.current_browser_id) with
  | none => (false, c, [])
  | some t =>
    if t = "" then (false, c, [])
    else
      let result := env.apiCloseOk
      if result then
        let c2 := if c.current_browser_id = some t
          then { c with current_browser_id := none } else c
        (true, c2, [.sleepFor delay, .apiClose t])
      else (false, c, [.sleepFor delay, .apiClose t])

/-- `BitBrowserConnector.create_context_from_browser`: creates a fresh
context (seeded from `account_file` or `storage_state` when given) and
applies the anti-detection init script to it.  The
`new_context(storage_state=account_file)` call raises when the supplied
file is missing or fails to parse, and the exception propagates (the
init script is then never reached). -/
def create_context_from_browser (env : Env) (browser : Browser)
    (account_file : Option String) (storage_state : Option StorageState) :
    Except PyError BrowserContext × List Eff :=
  if strTruthy account_file then
    match new_context_storage env account_file with
    | .ok cs =>
      (.ok ⟨env.freshId, cs⟩,
       [.newContext account_file, .initScript env.freshId])
    | .error e => (.error e, [.newContext account_file])
  else
    match storage_state with
    | some ss =>
      (.ok ⟨env.freshId, ss.cookiesKey.getD []⟩,
       [.newContext none, .initScript env.freshId])
    | none =>
      (.ok ⟨env.freshId, []⟩, [.newContext none, .initScript env.freshId])

/-- `BitBrowserConnector.get_or_create_browser`: opens the window, then
reuses the first pre-existing context when there is one (merging the
account file's cookies into it via `add_cookies`), creating and
initialising a fresh context only when the browser has none or when an
exception was raised inside the `try`.  The `except` branch retries
`create_context_from_browser`; when the retry's `new_context` re-reads a
missing or corrupt file it raises again, and that exception propagates
out of the function. -/
def BitBrowserConnector.get_or_create_browser (env : Env)
    (c : BitBrowserConnector) (browser_id : String) (headless : Bool)
    (account_file : Option String) :
    Except PyError (Option (Browser × BrowserContext))
      × BitBrowserConnector × List Eff :=
  match BitBrowserConnector.open_browser env c browser_id headless none with
  | (none, c2, effs) => (.ok none, c2, effs)
  | (some browser, c2, effs) =>
    match browser.contexts with
    | [] =>
      match create_context_from_browser env browser account_file none with
      | (.ok ctx, effs2) => (.ok (some (browser, ctx)), c2, effs ++ effs2)
      | (.error _e, effs2) =>
        match create_context_from_browser env browser account_file none with
        | (.ok ctx2, effs3) =>
          (.ok (some (browser, ctx2)), c2, effs ++ effs2 ++ effs3)
        | (.error e2, effs3) => (.error e2, c2, effs ++ effs2 ++ effs3)
    | ctx :: _rest =>
      if strTruthy account_file then
        if env.fileExists then
          match env.fileParse with
          | none =>
            match create_context_from_browser env browser account_file none with
            | (.ok ctx2, effs2) =>
              (.ok (some (browser, ctx2)), c2, effs ++ effs2)
            | (.error e, effs2) => (.error e, c2, effs ++ effs2)
          | some ss =>
            match ss.cookiesKey with
            | some cs =>
              (.ok (some (browser, { ctx with cookies := ctx.cookies ++ cs })),
               c2, effs ++ [.addCookies ctx.id cs])
            | none => (.ok (some (browser, ctx)), c2, effs)
        else (.ok (some (browser, ctx)), c2, effs)
      else (.ok (some (browser, ctx)), c2, effs)

/-! ## `BrowserManager` (`utils/bitbrowser_connector.py`) -/

/-- `BrowserManager.__init__` state.  The class defines exactly these
attributes; in particular it has no `current_browser_id` attribute. -/
structure BrowserManager where
  browser_type : String
  bitbrowser_url : String
  local_chrome_path : Option String
  headless : Bool
  connector : Option BitBrowserConnector
  deriving DecidableEq

/-- `BrowserManager(...)`: lower-cases the backend name and builds a
connector only in `bitbrowser` mode. -/
def BrowserManager.mk_init (browser_type : String) (bitbrowser_url : String)
    (local_chrome_path : Option String) (headless : Bool)
    (st : Option BitBrowserAPI) : BrowserManager × Option BitBrowserAPI :=
  let bt := pyLower browser_type
  if bt = "bitbrowser" then
    let (conn, st2) := BitBrowserConnector.mk_init st bitbrowser_url
    ({ browser_type := bt, bitbrowser_url := bitbrowser_url,
       local_chrome_path := local_chrome_path, headless := headless,
       connector := some conn }, st2)
  else
    ({ browser_type := bt, bitbrowser_url := bitbrowser_url,
       local_chrome_path := local_chrome_path, headless := headless,
       connector := none }, st)

/-- `BrowserManager.create_browser`: in `bitbrowser` mode a missing
`browser_id` is reported by an error log and the failure value
`(None, None)`; otherwise the connector runs open+reconcile and any
exception it raises propagates.  In Playwright mode a local engine is
launched and `new_context(storage_state=account_file)` is called — it
raises on a missing or unparseable file, otherwise the init script is
applied to the fresh context. -/
def BrowserManager.create_browser (env : Env) (mgr : BrowserManager)
    (browser_id : Option String) (account_file : Option String) :
    Except PyError (Option (Browser × BrowserContext)) × Option String × List Eff :=
  if mgr.browser_type = "bitbrowser" then
    if ¬ strTruthy browser_id then
      (.ok none, some "比特浏览器模式需要提供browser_id", [])
    else
      match mgr.connector with
      | none =>
        (.error (.attributeError "NoneType object has no attribute get_or_create_browser"),
         none, [])
      | some conn =>
        match BitBrowserConnector.get_or_create_browser env conn
            (browser_id.getD "") mgr.headless account_file with
        | (res, _c2, effs) => (res, none, effs)
  else
    match new_context_storage env account_file with
    | .ok cs =>
      let ctx : BrowserContext := ⟨env.freshId, cs⟩
      (.ok (some (⟨[ctx]⟩, ctx)), none,
       [.launchLocal mgr.headless
          (if strTruthy mgr.local_chrome_path then mgr.local_chrome_path else none),
        .newContext account_file, .initScript env.freshId])
    | .error e =>
      (.error e, none,
       [.launchLocal mgr.headless
          (if strTruthy mgr.local_chrome_path then mgr.local_chrome_path else none),
        .newContext account_file])

/-- `BrowserManager.close_browser`: in `bitbrowser` mode evaluates
`browser_id or self.current_browser_id` — but `BrowserManager` never
defines a `current_browser_id` attribute, so when `browser_id` is falsy
that read raises `AttributeError`.  In Playwright mode calls
`browser.close()`, which raises on a `None` browser. -/
def BrowserManager.close_browser (env : Env) (mgr : BrowserManager)
    (browser : Option Browser) (browser_id : Option String) :
    Except PyError Unit × List Eff :=
  if mgr.browser_type = "bitbrowser" then
    match mgr.connector with
    | none =>
      (.error (.attributeError "NoneType object has no attribute close_browser"), [])
    | some conn =>
      if strTruthy browser_id then
        let (_r, _c2, effs) := BitBrowserConnector.close_browser env conn browser_id 5
        (.ok (), effs)
      else
        (.error (.attributeError "BrowserManager object has no attribute current_browser_id"), [])
  else
    match browser with
    | none => (.error (.attributeError "NoneType object has no attribute close"), [])
    | some _b => (.ok (), [.browserClose])

/-! ## `create_browser_and_context` (`utils/browser_helper.py`) -/

/-- `browser_helper.create_browser_and_context`: defaults the backend
and headless flag from `conf`, raises a `ValueError` when `bitbrowser`
mode lacks a window id, raises a generic `Exception` when the connector
returns no session (and lets a connector exception propagate), and
otherwise builds the session.  The local path launches the engine and
calls `new_context(storage_state=account_file)`, which raises on a
missing or unparseable file before the init script is applied. -/
def create_browser_and_context (env : Env) (browser_type : Option String)
    (browser_id : Option String) (account_file : Option String)
    (headless : Option Bool) :
    Except PyError (Browser × BrowserContext) × List Eff :=
  let bt := browser_type.getD DEFAULT_BROWSER_TYPE
  let hl := headless.getD LOCAL_CHROME_HEADLESS
  if bt = "bitbrowser" then
    if ¬ strTruthy browser_id then
      (.error (.valueError "比特浏览器模式需要提供 browser_id 参数"), [])
    else
      let (conn, _st) := BitBrowserConnector.mk_init env.apiState BIT_BROWSER_URL
      match BitBrowserConnector.get_or_create_browser env conn
          (browser_id.getD "") hl account_file with
      | (.ok none, _c2, effs) => (.error (.exception "无法创建比特浏览器实例"), effs)
      | (.ok (some (b, ctx)), _c2, effs) => (.ok (b, ctx), effs)
      | (.error e, _c2, effs) => (.error e, effs)
  else
    match new_context_storage env account_file with
    | .ok cs =>
      let ctx : BrowserContext := ⟨env.freshId, cs⟩
      (.ok (⟨[ctx]⟩, ctx),
       [.launchLocal hl
          (if LOCAL_CHROME_PATH ≠ "" then some LOCAL_CHROME_PATH else none),
        .newContext account_file, .initScript env.freshId])
    | .error e =>
      (.error e,
       [.launchLocal hl
          (if LOCAL_CHROME_PATH ≠ "" then some LOCAL_CHROME_PATH else none),
        .newContext account_file])

/-- Number of times the anti-detection init script was applied to the
context with identity `ctx_id` in a run's effect list. -/
def countInit (effs : List Eff) (ctx_id : Nat) : Nat :=
  (effs.filter (fun e => e = Eff.initScript ctx_id)).length

/-! ## Claims: configuration resolution, singleton client, page-size clamp -/

/-- C6: for every account key, configuration resolution never raises (it
is a total function of the query outcome): when no account record exists
or any storage/query error occurs, both resolvers return the default
configuration, backend `"playwright"` with a null remote window id. -/
theorem resolve_config_defaults_on_missing_or_error (q : QueryOutcome)
    (h : q = QueryOutcome.notFound ∨ ∃ m, q = QueryOutcome.err m) :
    get_account_browser_config q
      = { browser_type := "playwright", bitbrowser_id := none } ∧
    get_account_browser_config_by_filepath q
      = { browser_type := "playwright", bitbrowser_id := none } := by
  rcases h with h | ⟨m, h⟩ <;> subst h <;> exact ⟨rfl, rfl⟩

/-- Witness for C6 at the concrete outcome "no row found". -/
theorem resolve_config_defaults_on_missing_or_error_witness :
    get_account_browser_config QueryOutcome.notFound
      = { browser_type := "playwright", bitbrowser_id := none } ∧
    get_account_browser_config_by_filepath QueryOutcome.notFound
      = { browser_type := "playwright", bitbrowser_id := none } :=
  resolve_config_defaults_on_missing_or_error QueryOutcome.notFound (Or.inl rfl)

/-- C9: after the first `get_bitbrowser_api` call, every later call
returns the same stored client and ignores its `base_url` argument; a
`BitBrowserConnector` built afterwards with a different URL therefore
holds the first-created client, whose base address comes from the first
call's URL. -/
theorem get_bitbrowser_api_singleton_first_wins (url1 url2 : String) :
    (get_bitbrowser_api none url1).1 = BitBrowserAPI.mk_init url1 ∧
    (get_bitbrowser_api none url1).2 = some (BitBrowserAPI.mk_init url1) ∧
    (get_bitbrowser_api (get_bitbrowser_api none url1).2 url2).1
      = (get_bitbrowser_api none url1).1 ∧
    (get_bitbrowser_api (get_bitbrowser_api none url1).2 url2).2
      = (get_bitbrowser_api none url1).2 ∧
    (BitBrowserConnector.mk_init (get_bitbrowser_api none url1).2 url2).1.api
      = BitBrowserAPI.mk_init url1 ∧
    (BitBrowserConnector.mk_init (get_bitbrowser_api none url1).2 url2).1.api.base_url
      = rstripSlash url1 ∧
    (BitBrowserConnector.mk_init (get_bitbrowser_api none url1).2 url2).1.bit_browser_url
      = url2 :=
  ⟨rfl, rfl, rfl, rfl, rfl, rfl, rfl⟩

/-- C10: the `pageSize` field sent to the window-list endpoint is
`min(page_size, 100)` and never exceeds 100. -/
theorem list_browsers_pageSize_clamped (page page_size : Int)
    (group_id name : Option String) :
    jget (BitBrowserAPI.list_browsers_payload page page_size group_id name)
        "pageSize" = some (JVal.jnum (min page_size 100)) ∧
    min page_size 100 ≤ 100 := by
  constructor
  · unfold BitBrowserAPI.list_browsers_payload
    cases hg : strTruthy group_id <;> cases hn : strTruthy name <;>
      simp [hg, hn, jget]
  · exact min_le_right _ _

/-! ## Claim C4: fail-soft behaviour of the service client -/

/-- C4 (amended): for every operation of `BitBrowserAPI`, a failure that
`requests` raises as a `RequestException` — timeout, connection refused,
non-2xx status, or a body that fails JSON decoding — yields the
operation's failure representation (`False` / `None` / empty collection /
a success-`False` envelope) and no exception reaches the caller. -/
theorem api_operations_fail_soft_on_request_exception
    (m browser_id : String) (ids : List String)
    (args : Option (List String)) (queue : Bool) (npu : Option String)
    (page page_size : Int) (gid nm : Option String)
    (cfg : List (String × JVal)) (cookies : List JVal) (save_synced : Bool)
    (pt host : String) (port pm : Int) (pu pp : Option String) :
    BitBrowserAPI.health_check (.exn m) = .ok false ∧
    BitBrowserAPI.create_browser (.exn m) cfg
      = .jobj [("success", .jbool false), ("msg", .jstr m)] ∧
    BitBrowserAPI.open_browser (.exn m) browser_id args queue npu = .ok .jnull ∧
    BitBrowserAPI.close_browser (.exn m) browser_id = .ok false ∧
    BitBrowserAPI.delete_browser (.exn m) browser_id = .ok false ∧
    BitBrowserAPI.get_browser_detail (.exn m) browser_id = .ok .jnull ∧
    BitBrowserAPI.list_browsers (.exn m) page page_size gid nm = .ok .jnull ∧
    BitBrowserAPI.get_browser_pids (.exn m) ids = .ok (.jobj []) ∧
    BitBrowserAPI.is_browser_opened (.exn m) browser_id = .ok false ∧
    BitBrowserAPI.update_browser_proxy (.exn m) ids pt host port pu pp pm
      = .ok false ∧
    BitBrowserAPI.reset_browser_status (.exn m) browser_id = .ok false ∧
    BitBrowserAPI.get_cookies (.exn m) browser_id = .ok .jnull ∧
    BitBrowserAPI.set_cookies (.exn m) browser_id cookies = .ok false ∧
    BitBrowserAPI.clear_cookies (.exn m) browser_id save_synced = .ok false ∧
    BitBrowserAPI.create_browser_for_platform (.exn m) cfg = .ok .jnull :=
  ⟨rfl, rfl, rfl, rfl, rfl, rfl, rfl, rfl, rfl, rfl, rfl, rfl, rfl, rfl, rfl⟩

/-- C4 counterexample: a 2xx response whose body is valid JSON but not a
JSON object — a malformed payload for this protocol — makes
`result.get("success", False)` raise `AttributeError`, which propagates
to the caller instead of a `False` result. -/
theorem health_check_raises_on_non_object_payload :
    BitBrowserAPI.health_check (.ok (.jstr "ok"))
      = .error (.attributeError "object has no attribute get") := rfl

/-! ## Claim C5: attach failure closes the just-opened window -/

/-- C5: when the remote window open succeeds (a non-empty `ws` endpoint
is returned) but the CDP attach fails, `open_browser` issues a close
request for exactly that window id via the service client, after the
open and before returning `None`. -/
theorem open_browser_attach_failure_closes_window (env : Env)
    (c : BitBrowserConnector) (browser_id : String) (headless : Bool)
    (args : Option (List String)) (od : OpenData) (ws : String)
    (hh : env.healthOk = true) (ho : env.openData = some od)
    (hws : od.ws = some ws) (hne : ws ≠ "") (hat : env.attachOk = false) :
    BitBrowserConnector.open_browser env c browser_id headless args =
      (none, c,
       [.healthCheck,
        .apiOpen browser_id
          (args.getD [] ++ if headless then ["--headless"] else []),
        .connectCdp ws, .apiClose browser_id]) := by
  simp [BitBrowserConnector.open_browser, hh, ho, hws, hne, hat]

/-- Witness for C5 at a concrete environment: open succeeds, attach
fails, and the trace ends with the close call for the same window id. -/
theorem open_browser_attach_failure_closes_window_witness :
    BitBrowserConnector.open_browser
      { healthOk := true, openData := some { ws := some "ws://endpoint" },
        attachOk := false, attachedBrowser := { contexts := [] },
        fileExists := false, fileParse := none, apiCloseOk := true,
        freshId := 0, apiState := none }
      { api := BitBrowserAPI.mk_init "http://127.0.0.1:2000",
        bit_browser_url := "http://127.0.0.1:2000", current_browser_id := none }
      "w1" false none =
      (none,
       { api := BitBrowserAPI.mk_init "http://127.0.0.1:2000",
         bit_browser_url := "http://127.0.0.1:2000", current_browser_id := none },
       [.healthCheck, .apiOpen "w1" [], .connectCdp "ws://endpoint",
        .apiClose "w1"]) :=
  open_browser_attach_failure_closes_window _ _ "w1" false none
    { ws := some "ws://endpoint" } "ws://endpoint" rfl rfl rfl (by decide) rfl

/-! ## Claim C7: cookie merge into a reused context -/

/-- C7: when the attached browser has a pre-existing context and a valid
authentication-state file (it exists, parses, and has a `cookies` entry)
is supplied, `get_or_create_browser` keeps that very context (same
identity, merely extended by `add_cookies`): every pre-existing cookie is
still present and every file cookie has been added. -/
theorem get_or_create_browser_merges_cookies (env : Env)
    (c : BitBrowserConnector) (browser_id f ws : String) (headless : Bool)
    (od : OpenData) (ctx0 : BrowserContext) (rest : List BrowserContext)
    (ss : StorageState) (cs : List Cookie)
    (hh : env.healthOk = true) (ho : env.openData = some od)
    (hws : od.ws = some ws) (hne : ws ≠ "") (hat : env.attachOk = true)
    (hctx : env.attachedBrowser.contexts = ctx0 :: rest)
    (hf : f ≠ "") (hex : env.fileExists = true)
    (hp : env.fileParse = some ss) (hck : ss.cookiesKey = some cs) :
    BitBrowserConnector.get_or_create_browser env c browser_id headless (some f)
      = (.ok (some (env.attachedBrowser,
                    { ctx0 with cookies := ctx0.cookies ++ cs })),
         { c with current_browser_id := some browser_id },
         [.healthCheck,
          .apiOpen browser_id (if headless then ["--headless"] else []),
          .connectCdp ws, .addCookies ctx0.id cs]) ∧
    (∀ ck ∈ ctx0.cookies, ck ∈ ctx0.cookies ++ cs) ∧
    (∀ ck ∈ cs, ck ∈ ctx0.cookies ++ cs) := by
  have hsf : strTruthy (some f) = true := by simp [strTruthy, hf]
  refine ⟨?_, ?_, ?_⟩
  · simp [BitBrowserConnector.get_or_create_browser,
      BitBrowserConnector.open_browser, hh, ho, hws, hne, hat, hctx, hsf,
      hex, hp, hck]
  · intro ck hm; exact List.mem_append_left _ hm
  · intro ck hm; exact List.mem_append_right _ hm

/-- Pre-existing cookie of the reused context in the C7 witness. -/
def cookieA : Cookie := { name := "A", value := "1", domain := "example.com" }

/-- Cookie stored in the authentication-state file in the C7 witness. -/
def cookieB : Cookie := { name := "B", value := "2", domain := "example.com" }

/-- The pre-existing remote context of the C7 witness. -/
def ctxA : BrowserContext := { id := 3, cookies := [cookieA] }

/-- Environment of the C7 witness: open and attach succeed, the attached
browser has one context with cookie A, and the account file parses to a
state holding cookie B. -/
def envC7 : Env :=
  { healthOk := true, openData := some { ws := some "ws://endpoint" },
    attachOk := true, attachedBrowser := { contexts := [ctxA] },
    fileExists := true, fileParse := some { cookiesKey := some [cookieB] },
    apiCloseOk := true, freshId := 0, apiState := none }

/-- Connector state used by the C7 witness. -/
def connC7 : BitBrowserConnector :=
  { api := BitBrowserAPI.mk_init "http://127.0.0.1:2000",
    bit_browser_url := "http://127.0.0.1:2000", current_browser_id := none }

/-- Witness for C7: a context holding cookie A and a state file holding
cookie B yield the same context holding both A and B. -/
theorem get_or_create_browser_merges_cookies_witness :
    BitBrowserConnector.get_or_create_browser envC7 connC7 "w1" false
        (some "acc.json")
      = (.ok (some (envC7.attachedBrowser,
                    { ctxA with cookies := ctxA.cookies ++ [cookieB] })),
         { connC7 with current_browser_id := some "w1" },
         [.healthCheck, .apiOpen "w1" [], .connectCdp "ws://endpoint",
          .addCookies 3 [cookieB]]) ∧
    (∀ ck ∈ ctxA.cookies, ck ∈ ctxA.cookies ++ [cookieB]) ∧
    (∀ ck ∈ [cookieB], ck ∈ ctxA.cookies ++ [cookieB]) :=
  get_or_create_browser_merges_cookies envC7 connC7 "w1" "acc.json"
    "ws://endpoint" false { ws := some "ws://endpoint" } ctxA []
    { cookiesKey := some [cookieB] } [cookieB]
    rfl rfl rfl (by decide) rfl rfl (by decide) rfl rfl rfl

/-! ## Claim C2: RemoteService backend selected without a window id -/

/-- C2: `BrowserManager.create_browser` in `bitbrowser` mode with a falsy
window id returns the failure value `(None, None)` with a descriptive
error log, and `create_browser_and_context` raises its documented,
descriptive `ValueError`; in both cases no external action is performed —
no health probe, no remote open, no engine attach. -/
theorem create_browser_missing_window_id_config_error (env : Env)
    (url : String) (path : Option String) (hl : Bool)
    (browser_id : Option String) (account_file : Option String)
    (hid : strTruthy browser_id = false) :
    BrowserManager.create_browser env
        (BrowserManager.mk_init "bitbrowser" url path hl env.apiState).1
        browser_id account_file
      = (.ok none, some "比特浏览器模式需要提供browser_id", []) ∧
    create_browser_and_context env (some "bitbrowser") browser_id
        account_file (some hl)
      = (.error (.valueError "比特浏览器模式需要提供 browser_id 参数"), []) := by
  have hpl : pyLower "bitbrowser" = "bitbrowser" := rfl
  constructor
  · simp [BrowserManager.create_browser, BrowserManager.mk_init,
      BitBrowserConnector.mk_init, hpl, hid]
  · simp [create_browser_and_context, hid]

/-- Witness for C2 at `browser_id = None`. -/
theorem create_browser_missing_window_id_config_error_witness :
    BrowserManager.create_browser
        { healthOk := true, openData := none, attachOk := false,
          attachedBrowser := { contexts := [] }, fileExists := false,
          fileParse := none, apiCloseOk := true, freshId := 0,
          apiState := none }
        (BrowserManager.mk_init "bitbrowser" "http://127.0.0.1:54345" none
          false none).1
        none none
      = (.ok none, some "比特浏览器模式需要提供browser_id", []) ∧
    create_browser_and_context
        { healthOk := true, openData := none, attachOk := false,
          attachedBrowser := { contexts := [] }, fileExists := false,
          fileParse := none, apiCloseOk := true, freshId := 0,
          apiState := none }
        (some "bitbrowser") none none (some false)
      = (.error (.valueError "比特浏览器模式需要提供 browser_id 参数"), []) :=
  create_browser_missing_window_id_config_error _ "http://127.0.0.1:54345"
    none false none none rfl

/-! ## Claim C3: idempotence of `closeBrowser` -/

/-- C3 (failing input): closing a session that was never fully
established — `browser_id = None` in `bitbrowser` mode — raises
`AttributeError`, because line 333 of `bitbrowser_connector.py` reads
`self.current_browser_id` and `BrowserManager` never defines that
attribute (it exists only on `BitBrowserConnector`).  By contrast the
connector-level close is exception-free: a second close of the same id,
with the service already reporting it closed, returns `False` without
raising. -/
theorem manager_close_browser_raises_without_window_id :
    BrowserManager.close_browser
      { healthOk := true, openData := none, attachOk := false,
        attachedBrowser := { contexts := [] }, fileExists := false,
        fileParse := none, apiCloseOk := false, freshId := 0,
        apiState := none }
      (BrowserManager.mk_init "bitbrowser" "http://127.0.0.1:54345" none
        false none).1
      none none
    = (.error (.attributeError
         "BrowserManager object has no attribute current_browser_id"), []) ∧
    BitBrowserConnector.close_browser
      { healthOk := true, openData := none, attachOk := false,
        attachedBrowser := { contexts := [] }, fileExists := false,
        fileParse := none, apiCloseOk := false, freshId := 0,
        apiState := none }
      { api := BitBrowserAPI.mk_init "http://127.0.0.1:54345",
        bit_browser_url := "http://127.0.0.1:54345",
        current_browser_id := none }
      (some "w1") 5
    = (false,
       { api := BitBrowserAPI.mk_init "http://127.0.0.1:54345",
         bit_browser_url := "http://127.0.0.1:54345",
         current_browser_id := none },
       [.sleepFor 5, .apiClose "w1"]) :=
  ⟨rfl, rfl⟩

/-! ## Claim C1: init-script application count per backend path -/

/-- Environment for the C1 counterexample: the remote open and attach
succeed and the attached browser already has one context. -/
def envC1 : Env :=
  { healthOk := true, openData := some { ws := some "ws://endpoint" },
    attachOk := true, attachedBrowser := { contexts := [ctxA] },
    fileExists := false, fileParse := none, apiCloseOk := true,
    freshId := 99, apiState := none }

/-- C1 counterexample: a successful RemoteService session that reuses
the pre-existing context returns with the anti-detection init script
applied zero times to that context, not exactly once. -/
theorem create_browser_reused_context_skips_init_script :
    BrowserManager.create_browser envC1
        (BrowserManager.mk_init "bitbrowser" "http://127.0.0.1:54345" none
          false none).1
        (some "w1") none
      = (.ok (some (envC1.attachedBrowser, ctxA)), none,
         [.healthCheck, .apiOpen "w1" [], .connectCdp "ws://endpoint"]) ∧
    countInit [.healthCheck, .apiOpen "w1" [], .connectCdp "ws://endpoint"]
        ctxA.id = 0 :=
  ⟨rfl, rfl⟩

/-- C1 (amended): whenever `createBrowser` returns a session, the
LocalEngine backend has applied the anti-detection init script exactly
once to the returned context; the RemoteService backend has applied it
exactly once when it had to create a fresh context (no pre-existing
context on the attached browser), and zero times when it reused a
pre-existing context.  The paths that must build a context from the
authentication-state file return a session only when that file exists
and parses — otherwise `new_context(storage_state=...)` raises — hence
the file-validity guards on the first and third conjuncts. -/
theorem create_browser_init_script_count (env : Env) (url bid : String)
    (path : Option String) (hl : Bool) (af : Option String)
    (hbid : bid ≠ "") :
    ((strTruthy af = true → env.fileExists = true ∧ env.fileParse ≠ none) →
     ∃ b ctx effs,
       BrowserManager.create_browser env
           (BrowserManager.mk_init "playwright" url path hl env.apiState).1
           (some bid) af
         = (.ok (some (b, ctx)), none, effs) ∧ countInit effs ctx.id = 1) ∧
    (∀ od ws ctx0 rest,
       env.healthOk = true → env.openData = some od → od.ws = some ws →
       ws ≠ "" → env.attachOk = true →
       env.attachedBrowser.contexts = ctx0 :: rest →
       (strTruthy af = true → env.fileExists = true → env.fileParse ≠ none) →
       ∃ ctxR effs,
         BrowserManager.create_browser env
             (BrowserManager.mk_init "bitbrowser" url path hl env.apiState).1
             (some bid) af
           = (.ok (some (env.attachedBrowser, ctxR)), none, effs) ∧
         ctxR.id = ctx0.id ∧ countInit effs ctxR.id = 0) ∧
    (∀ od ws,
       env.healthOk = true → env.openData = some od → od.ws = some ws →
       ws ≠ "" → env.attachOk = true → env.attachedBrowser.contexts = [] →
       (strTruthy af = true → env.fileExists = true ∧ env.fileParse ≠ none) →
       ∃ ctxR effs,
         BrowserManager.create_browser env
             (BrowserManager.mk_init "bitbrowser" url path hl env.apiState).1
             (some bid) af
           = (.ok (some (env.attachedBrowser, ctxR)), none, effs) ∧
         ctxR.id = env.freshId ∧ countInit effs ctxR.id = 1) := by
  have hpl : pyLower "bitbrowser" = "bitbrowser" := rfl
  have hplp : pyLower "playwright" = "playwright" := rfl
  have hneq : (("playwright" : String) = "bitbrowser") = False :=
    eq_false (by decide)
  have hb : strTruthy (some bid) = true := by simp [strTruthy, hbid]
  refine ⟨?_, ?_, ?_⟩
  · intro hfile
    cases haf : strTruthy af with
    | false =>
      refine ⟨⟨[⟨env.freshId, []⟩]⟩, ⟨env.freshId, []⟩,
        [.launchLocal hl (if strTruthy path then path else none),
         .newContext af, .initScript env.freshId], ?_, ?_⟩
      · simp [BrowserManager.create_browser, BrowserManager.mk_init,
          new_context_storage, hplp, hneq, haf]
      · simp [countInit]
    | true =>
      obtain ⟨hex, hpne⟩ := hfile haf
      obtain ⟨ss, hss⟩ : ∃ ss, env.fileParse = some ss := by
        cases hfp : env.fileParse with
        | none => exact absurd hfp hpne
        | some ss => exact ⟨ss, rfl⟩
      refine ⟨⟨[⟨env.freshId, ss.cookiesKey.getD []⟩]⟩,
        ⟨env.freshId, ss.cookiesKey.getD []⟩,
        [.launchLocal hl (if strTruthy path then path else none),
         .newContext af, .initScript env.freshId], ?_, ?_⟩
      · simp [BrowserManager.create_browser, BrowserManager.mk_init,
          new_context_storage, hplp, hneq, haf, hex, hss]
      · simp [countInit]
  · intro od ws ctx0 rest hh ho hws hne hat hctx hparse
    cases haf : strTruthy af with
    | false =>
      refine ⟨ctx0,
        [.healthCheck, .apiOpen bid (if hl then ["--headless"] else []),
         .connectCdp ws], ?_, rfl, ?_⟩
      · simp [BrowserManager.create_browser, BrowserManager.mk_init,
          BitBrowserConnector.mk_init, hpl, hb,
          BitBrowserConnector.get_or_create_browser,
          BitBrowserConnector.open_browser, hh, ho, hws, hne, hat, hctx, haf]
      · simp [countInit]
    | true =>
      cases hex : env.fileExists with
      | false =>
        refine ⟨ctx0,
          [.healthCheck, .apiOpen bid (if hl then ["--headless"] else []),
           .connectCdp ws], ?_, rfl, ?_⟩
        · simp [BrowserManager.create_browser, BrowserManager.mk_init,
            BitBrowserConnector.mk_init, hpl, hb,
            BitBrowserConnector.get_or_create_browser,
            BitBrowserConnector.open_browser, hh, ho, hws, hne, hat, hctx,
            haf, hex]
        · simp [countInit]
      | true =>
        obtain ⟨ss, hss⟩ : ∃ ss, env.fileParse = some ss := by
          cases hfp : env.fileParse with
          | none => exact absurd hfp (hparse haf hex)
          | some ss => exact ⟨ss, rfl⟩
        cases hck : ss.cookiesKey with
        | none =>
          refine ⟨ctx0,
            [.healthCheck, .apiOpen bid (if hl then ["--headless"] else []),
             .connectCdp ws], ?_, rfl, ?_⟩
          · simp [BrowserManager.create_browser, BrowserManager.mk_init,
              BitBrowserConnector.mk_init, hpl, hb,
              BitBrowserConnector.get_or_create_browser,
              BitBrowserConnector.open_browser, hh, ho, hws, hne, hat, hctx,
              haf, hex, hss, hck]
          · simp [countInit]
        | some cs =>
          refine ⟨{ ctx0 with cookies := ctx0.cookies ++ cs },
            [.healthCheck, .apiOpen bid (if hl then ["--headless"] else []),
             .connectCdp ws, .addCookies ctx0.id cs], ?_, rfl, ?_⟩
          · simp [BrowserManager.create_browser, BrowserManager.mk_init,
              BitBrowserConnector.mk_init, hpl, hb,
              BitBrowserConnector.get_or_create_browser,
              BitBrowserConnector.open_browser, hh, ho, hws, hne, hat, hctx,
              haf, hex, hss, hck]
          · simp [countInit]
  · intro od ws hh ho hws hne hat hctx hfile
    cases haf : strTruthy af with
    | false =>
      refine ⟨⟨env.freshId, []⟩,
        [.healthCheck, .apiOpen bid (if hl then ["--headless"] else []),
         .connectCdp ws, .newContext none, .initScript env.freshId],
        ?_, rfl, ?_⟩
      · simp [BrowserManager.create_browser, BrowserManager.mk_init,
          BitBrowserConnector.mk_init, hpl, hb,
          BitBrowserConnector.get_or_create_browser,
          BitBrowserConnector.open_browser, create_context_from_browser,
          hh, ho, hws, hne, hat, hctx, haf]
      · simp [countInit]
    | true =>
      obtain ⟨hex, hpne⟩ := hfile haf
      obtain ⟨ss, hss⟩ : ∃ ss, env.fileParse = some ss := by
        cases hfp : env.fileParse with
        | none => exact absurd hfp hpne
        | some ss => exact ⟨ss, rfl⟩
      refine ⟨⟨env.freshId, ss.cookiesKey.getD []⟩,
        [.healthCheck, .apiOpen bid (if hl then ["--headless"] else []),
         .connectCdp ws, .newContext af, .initScript env.freshId],
        ?_, rfl, ?_⟩
      · simp [BrowserManager.create_browser, BrowserManager.mk_init,
          BitBrowserConnector.mk_init, hpl, hb,
          BitBrowserConnector.get_or_create_browser,
          BitBrowserConnector.open_browser, create_context_from_browser,
          new_context_storage, hh, ho, hws, hne, hat, hctx, haf, hex, hss]
      · simp [countInit]

/-- Witness for C1 (amended), LocalEngine conjunct, at a concrete
environment (no account file supplied, so the file guard is vacuous). -/
theorem create_browser_init_script_count_witness :
    ∃ b ctx effs,
      BrowserManager.create_browser envC1
          (BrowserManager.mk_init "playwright" "http://127.0.0.1:54345" none
            false envC1.apiState).1
          (some "w1") none
        = (.ok (some (b, ctx)), none, effs) ∧ countInit effs ctx.id = 1 :=
  (create_browser_init_script_count envC1 "http://127.0.0.1:54345" "w1" none
    false none (by decide)).1 (fun h => absurd h (by decide))

/-! ## Claim C8: the publish-time scheduler

The scheduler `generate_schedule_time_next_day` lives in
`utils/files_times.py`, which is not among the provided sources (only its
callers in `myUtils/postVideo.py` are), so the functions below are
modelled from the specification text of sections 3, 4.5 and 8. -/

/-- Modelled from the spec: `ScheduleRequest` of §3 — `itemCount ≥ 0`
items, `itemsPerDay ≥ 1` per day, optional ordered `(hour, minute)`
slots, and a start offset in days. -/
structure ScheduleRequest where
  itemCount : Nat
  itemsPerDay : Nat
  timesOfDay : Option (List (Nat × Nat))
  startDayOffset : Nat
  deriving DecidableEq

/-- Minutes in a day; timestamps are minutes since an epoch. -/
def minutesPerDay : Nat := 1440

/-- Modelled from the spec (§4.5): the clock time, in minutes after
midnight, assigned from a supplied times list to the `j`-th item of a
day — the given times in order, cycling when a day holds more items than
there are times. -/
def slotFromTimes (ts : List (Nat × Nat)) (j : Nat) : Nat :=
  match ts.get? (j % ts.length) with
  | some p => p.1 * 60 + p.2
  | none => 0

/-- Modelled from the spec (§4.5): the clock slot, in minutes after
midnight, of the `j`-th item of a day.  With supplied `timesOfDay` the
given times are used in order, cycling when a day holds more items than
there are times; otherwise a deterministic even spacing across the
default daytime window 09:00–18:00 is used. -/
def slotMinutes (r : ScheduleRequest) (j : Nat) : Nat :=
  match r.timesOfDay with
  | some ts => slotFromTimes ts j
  | none => 9 * 60 + j * ((18 * 60 - 9 * 60) / r.itemsPerDay)

/-- Modelled from the spec (§4.5, §3): the timestamp of item `i` —
`itemsPerDay` items per day on consecutive days, the first day being the
day after `now` plus `startDayOffset` days (timestamps are in the future
relative to `now`). -/
def scheduleAt (now : Nat) (r : ScheduleRequest) (i : Nat) : Nat :=
  (now / minutesPerDay + 1 + r.startDayOffset + i / r.itemsPerDay)
      * minutesPerDay
    + slotMinutes r (i % r.itemsPerDay)

/-- Modelled from the spec (§4.5): `schedule(request)` — the ordered
sequence of the `itemCount` item timestamps. -/
def schedule (now : Nat) (r : ScheduleRequest) : List Nat :=
  (List.range r.itemCount).map (scheduleAt now r)

/-- The C8 counterexample request: three items on one day with only two
supplied times, so the third item cycles back to the first time. -/
def reqCycling : ScheduleRequest :=
  { itemCount := 3, itemsPerDay := 3, timesOfDay := some [(9, 0), (18, 0)],
    startDayOffset := 0 }

/-- C8 counterexample: with `itemsPerDay = 3` and only two supplied
times of day, the cycling that §4.5 prescribes makes the sequence
decrease inside the first day, refuting the unconditional
non-decreasing claim. -/
theorem schedule_not_monotone_when_cycling :
    schedule 0 reqCycling = [1980, 2520, 1980] ∧
    ¬ List.Chain' (fun a b => a ≤ b) (schedule 0 reqCycling) := by
  have h1 : schedule 0 reqCycling = [1980, 2520, 1980] := rfl
  refine ⟨h1, ?_⟩
  rw [h1, List.chain'_cons, List.chain'_cons]
  intro h
  omega

/-- Hypotheses on a supplied `timesOfDay` under which the schedule is
monotone: enough slots for a full day, sorted clock times, valid clock
times. -/
def timesOk (r : ScheduleRequest) : Prop :=
  ∀ ts, r.timesOfDay = some ts →
    r.itemsPerDay ≤ ts.length ∧
    List.Chain' (fun a b => a ≤ b) (ts.map fun p => p.1 * 60 + p.2) ∧
    ∀ p ∈ ts, p.1 < 24 ∧ p.2 < 60

/-- Value of a slot taken from a supplied, long-enough times list. -/
theorem slotMinutes_eq_of_some (r : ScheduleRequest)
    (ts : List (Nat × Nat)) (j : Nat) (hcase : r.timesOfDay = some ts)
    (hjl : j < ts.length) :
    slotMinutes r j = (ts.get ⟨j, hjl⟩).1 * 60 + (ts.get ⟨j, hjl⟩).2 := by
  unfold slotMinutes
  rw [hcase]
  show slotFromTimes ts j = _
  unfold slotFromTimes
  rw [Nat.mod_eq_of_lt hjl, List.get?_eq_get hjl]

/-- Value of a slot under the default even spacing. -/
theorem slotMinutes_eq_of_none (r : ScheduleRequest) (j : Nat)
    (hcase : r.timesOfDay = none) :
    slotMinutes r j = 9 * 60 + j * ((18 * 60 - 9 * 60) / r.itemsPerDay) := by
  unfold slotMinutes
  rw [hcase]

/-- Every within-day slot is an in-range clock time (below one day). -/
theorem slotMinutes_lt (r : ScheduleRequest) (j : Nat)
    (hq : 1 ≤ r.itemsPerDay) (hts : timesOk r) (hj : j < r.itemsPerDay) :
    slotMinutes r j < minutesPerDay := by
  cases hcase : r.timesOfDay with
  | none =>
    rw [slotMinutes_eq_of_none r j hcase]
    have h1 : (18 * 60 - 9 * 60) / r.itemsPerDay * r.itemsPerDay ≤ 540 :=
      Nat.div_mul_le_self _ _
    have h2 : j * ((18 * 60 - 9 * 60) / r.itemsPerDay)
        ≤ r.itemsPerDay * ((18 * 60 - 9 * 60) / r.itemsPerDay) :=
      Nat.mul_le_mul_right _ (Nat.le_of_lt hj)
    have h3 : r.itemsPerDay * ((18 * 60 - 9 * 60) / r.itemsPerDay)
        = (18 * 60 - 9 * 60) / r.itemsPerDay * r.itemsPerDay :=
      Nat.mul_comm _ _
    unfold minutesPerDay
    omega
  | some ts =>
    obtain ⟨hlen, _hchain, hvalid⟩ := hts ts hcase
    have hjl : j < ts.length := lt_of_lt_of_le hj hlen
    rw [slotMinutes_eq_of_some r ts j hcase hjl]
    have hmem : ts.get ⟨j, hjl⟩ ∈ ts := ts.get_mem _ _
    obtain ⟨hh, hm⟩ := hvalid _ hmem
    unfold minutesPerDay
    omega

/-- Within one day, consecutive slots are non-decreasing. -/
theorem slotMinutes_mono (r : ScheduleRequest) (j : Nat)
    (hq : 1 ≤ r.itemsPerDay) (hts : timesOk r)
    (hj : j + 1 < r.itemsPerDay) :
    slotMinutes r j ≤ slotMinutes r (j + 1) := by
  cases hcase : r.timesOfDay with
  | none =>
    rw [slotMinutes_eq_of_none r j hcase,
      slotMinutes_eq_of_none r (j + 1) hcase]
    have : j * ((18 * 60 - 9 * 60) / r.itemsPerDay)
        ≤ (j + 1) * ((18 * 60 - 9 * 60) / r.itemsPerDay) :=
      Nat.mul_le_mul_right _ (Nat.le_succ j)
    omega
  | some ts =>
    obtain ⟨hlen, hchain, _hvalid⟩ := hts ts hcase
    have hj1 : j + 1 < ts.length := lt_of_lt_of_le hj hlen
    have hj0 : j < ts.length := Nat.lt_of_succ_lt hj1
    rw [slotMinutes_eq_of_some r ts j hcase hj0,
      slotMinutes_eq_of_some r ts (j + 1) hcase hj1]
    have hlt : j < (ts.map fun p => p.1 * 60 + p.2).length - 1 := by
      rw [List.length_map]; omega
    have hcg := List.chain'_iff_get.mp hchain j hlt
    simpa using hcg

/-- Consecutive schedule entries are non-decreasing under `timesOk`. -/
theorem scheduleAt_mono_succ (now : Nat) (r : ScheduleRequest) (i : Nat)
    (hq : 1 ≤ r.itemsPerDay) (hts : timesOk r) :
    scheduleAt now r i ≤ scheduleAt now r (i + 1) := by
  have hp0 : 0 < r.itemsPerDay := hq
  have hrr : i % r.itemsPerDay < r.itemsPerDay := Nat.mod_lt _ hp0
  by_cases hcase : i % r.itemsPerDay + 1 < r.itemsPerDay
  · have hi : i + 1 = i % r.itemsPerDay + 1 + r.itemsPerDay * (i / r.itemsPerDay) := by
      have := Nat.div_add_mod i r.itemsPerDay
      omega
    have hdiv : (i + 1) / r.itemsPerDay = i / r.itemsPerDay := by
      rw [hi, Nat.add_mul_div_left _ _ hp0, Nat.div_eq_of_lt hcase,
        Nat.zero_add]
    have hmod : (i + 1) % r.itemsPerDay = i % r.itemsPerDay + 1 := by
      rw [hi, Nat.add_mul_mod_self_left, Nat.mod_eq_of_lt hcase]
    unfold scheduleAt
    rw [hdiv, hmod]
    exact Nat.add_le_add_left (slotMinutes_mono r _ hq hts hcase) _
  · have hi : i + 1 = r.itemsPerDay * (i / r.itemsPerDay + 1) := by
      have := Nat.div_add_mod i r.itemsPerDay
      rw [Nat.mul_add, Nat.mul_one]
      omega
    have hdiv : (i + 1) / r.itemsPerDay = i / r.itemsPerDay + 1 := by
      rw [hi, Nat.mul_div_cancel_left _ hp0]
    have hmod : (i + 1) % r.itemsPerDay = 0 := by
      rw [hi, Nat.mul_mod_right]
    have hslot : slotMinutes r (i % r.itemsPerDay) < minutesPerDay :=
      slotMinutes_lt r _ hq hts hrr
    unfold scheduleAt
    rw [hdiv, hmod]
    unfold minutesPerDay at hslot ⊢
    omega

/-- C8 (amended): `schedule` unconditionally returns exactly `itemCount`
timestamps, all strictly after `now`, and the empty sequence for
`itemCount = 0`; the sequence is non-decreasing provided `itemsPerDay`
is at least one and the supplied `timesOfDay` (when present) is sorted,
consists of valid clock times, and offers at least `itemsPerDay` slots —
with fewer slots, §4.5's within-day cycling makes the output decrease,
as the counterexample shows. -/
theorem schedule_spec (now : Nat) (r : ScheduleRequest) :
    (schedule now r).length = r.itemCount ∧
    (∀ t ∈ schedule now r, now < t) ∧
    (r.itemCount = 0 → schedule now r = []) ∧
    (1 ≤ r.itemsPerDay → timesOk r →
      List.Chain' (fun a b => a ≤ b) (schedule now r)) := by
  refine ⟨by simp [schedule], ?_, ?_, ?_⟩
  · intro t ht
    simp only [schedule, List.mem_map, List.mem_range] at ht
    obtain ⟨i, _hi, rfl⟩ := ht
    have h1 : now < (now / minutesPerDay + 1) * minutesPerDay := by
      unfold minutesPerDay
      omega
    calc now < (now / minutesPerDay + 1) * minutesPerDay := h1
      _ ≤ (now / minutesPerDay + 1 + r.startDayOffset + i / r.itemsPerDay)
            * minutesPerDay :=
          Nat.mul_le_mul_right _
            (le_trans (Nat.le_add_right _ _) (Nat.le_add_right _ _))
      _ ≤ (now / minutesPerDay + 1 + r.startDayOffset + i / r.itemsPerDay)
            * minutesPerDay + slotMinutes r (i % r.itemsPerDay) :=
          Nat.le_add_right _ _
      _ = scheduleAt now r i := rfl
  · intro h
    simp [schedule, h]
  · intro hq hts
    rw [schedule, List.chain'_map]
    cases hn : r.itemCount with
    | zero => simp
    | succ k =>
      rw [List.chain'_range_succ]
      intro m _hm
      exact scheduleAt_mono_succ now r m hq hts

/-- The §8 example request: five items, two per day, times 09:00 and
18:00, starting at offset zero. -/
def reqFiveTwo : ScheduleRequest :=
  { itemCount := 5, itemsPerDay := 2, timesOfDay := some [(9, 0), (18, 0)],
    startDayOffset := 0 }

/-- Witness for C8 (amended) at the concrete request of §8 of the
specification, with the monotonicity side conditions discharged. -/
theorem schedule_spec_witness :
    (schedule 0 reqFiveTwo).length = 5 ∧
    (∀ t ∈ schedule 0 reqFiveTwo, 0 < t) ∧
    List.Chain' (fun a b => a ≤ b) (schedule 0 reqFiveTwo) :=
  have h := schedule_spec 0 reqFiveTwo
  ⟨h.1, h.2.1,
   h.2.2.2 (by decide)
     (by
       intro ts hts
       injection hts with hts
       subst hts
       refine ⟨by decide, ?_, by decide⟩
       rw [List.map_cons, List.map_cons, List.map_nil, List.chain'_cons]
       refine ⟨by norm_num, List.chain'_singleton _⟩)⟩
